import Mathlib

/-!
Shallow embedding of the order-workflow handlers of `src/routes/accountRoute.js`
(an Express + Mongoose e-commerce backend).  Documents are flat records, the
database is three lists of records, `findById` is a first-match lookup and
`save` is a replace-by-id write.  Money values are rationals (JavaScript
numbers; all amounts arising here are exact in binary floating point, and the
only non-integer operation is `* 0.5`, which is exact), stock quantities are
integers (they may go negative, as in the source).
-/

namespace MMA

/-- A product document: `_id`, `name`, `price`, `quantity` (stock). -/
structure Product where
  _id : Nat
  name : String
  price : ℚ
  quantity : ℤ
  deriving DecidableEq, Repr

/-- An account document: `_id`, `email`, `balance`, `role`. -/
structure Account where
  _id : Nat
  email : String
  balance : ℚ
  role : String
  deriving DecidableEq, Repr

/-- A line item inside an order: a product reference and a quantity. -/
structure OrderItem where
  product : Nat
  quantity : ℤ
  deriving DecidableEq, Repr

/-- An order document, as created by `/add-to-cart`. -/
structure Order where
  _id : Nat
  account : Nat
  items : List OrderItem
  totalAmount : ℚ
  status : String
  imageConfirmDelivered : Option String
  deriving DecidableEq, Repr

/-- The document database: the three collections the order flow touches. -/
structure Db where
  accounts : List Account
  products : List Product
  orders : List Order
  deriving DecidableEq, Repr

/-- `db.Product.findById(pid)`: first product whose `_id` matches. -/
def Db.findProduct (db : Db) (pid : Nat) : Option Product :=
  db.products.find? (fun p => p._id == pid)

/-- `db.Account.findById(aid)`: first account whose `_id` matches. -/
def Db.findAccount (db : Db) (aid : Nat) : Option Account :=
  db.accounts.find? (fun a => a._id == aid)

/-- `db.Order.findById(oid)`: first order whose `_id` matches. -/
def Db.findOrder (db : Db) (oid : Nat) : Option Order :=
  db.orders.find? (fun o => o._id == oid)

/-- `db.Account.findOne({role:"admin"})`: first account with role `admin`. -/
def Db.findAdmin (db : Db) : Option Account :=
  db.accounts.find? (fun a => a.role == "admin")

/-- `product.save()` on a loaded document: replace the record with this `_id`. -/
def Db.saveProduct (db : Db) (p : Product) : Db :=
  { db with products := db.products.map (fun q => if q._id == p._id then p else q) }

/-- `account.save()` on a loaded document: replace the record with this `_id`. -/
def Db.saveAccount (db : Db) (a : Account) : Db :=
  { db with accounts := db.accounts.map (fun b => if b._id == a._id then a else b) }

/-- `order.save()` on a loaded document: replace the record with this `_id`. -/
def Db.saveOrder (db : Db) (o : Order) : Db :=
  { db with orders := db.orders.map (fun q => if q._id == o._id then o else q) }

/-- `newOrder.save()` on a freshly constructed document: insert. -/
def Db.insertOrder (db : Db) (o : Order) : Db :=
  { db with orders := db.orders ++ [o] }

/-- An HTTP response as produced by the handlers: a redirect, a JSON body with
an HTTP status and message, the cancel success JSON that also carries
`refundAmount`, or no response at all (a handler path that falls through
without calling `res`). -/
inductive Response where
  | redirect (url : String)
  | json (status : Nat) (message : String)
  | jsonRefund (status : Nat) (message : String) (refundAmount : ℚ)
  | noResponse
  deriving DecidableEq, Repr

/-! ### The order-workflow handlers, translated from `accountRoute.js` -/

/-- The deep-link base URL the payment-confirmation endpoint redirects to. -/
def cartBase : String := "exp://192.168.1.4:8081/--/cart"

/-- A failure redirect of `/confirm-payment`: status and message in the query. -/
def errorRedirect (msg : String) : Response :=
  Response.redirect (cartBase ++ "?status=error&message=" ++ msg)

/-- The success redirect of `/confirm-payment`. -/
def successRedirect (orderId : Nat) : Response :=
  Response.redirect (cartBase ++ "?status=success&orderId=" ++ toString orderId)

/-- The runtime `TypeError` message raised by `item.product._id` when
`populate` resolved the reference to `null` (product record missing). -/
def nullIdMsg : String := "Cannot read properties of null (reading _id)"

/-- `order.populate("items.product")`: pair each line item with the product
record its reference resolves to at load time (`none` when missing). -/
def populateItems (db : Db) (items : List OrderItem) : List (OrderItem × Option Product) :=
  items.map (fun it => (it, db.findProduct it.product))

/-- The stock-decrement loop of `/confirm-payment`: for each line item, read
`item.product._id` from the populated reference (throws when `null`), reload
the product by id, and if found save it with quantity reduced by the ordered
quantity.  Returns the database after the writes performed, and the error
message when the loop threw. -/
def decLoop : Db → List (OrderItem × Option Product) → Db × Option String
  | db, [] => (db, none)
  | db, (it, pop) :: rest =>
    match pop with
    | none => (db, some nullIdMsg)
    | some p =>
      match db.findProduct p._id with
      | none => decLoop db rest
      | some product =>
        decLoop (db.saveProduct { product with quantity := product.quantity - it.quantity }) rest

/-- Handler `GET /confirm-payment/:orderId` with query `vnp_ResponseCode`. -/
def confirmPayment (db : Db) (orderId : Nat) (vnp_ResponseCode : String) : Response × Db :=
  if vnp_ResponseCode ≠ "00" then
    (errorRedirect "Payment%20unsuccessful", db)
  else
    match db.findOrder orderId with
    | none => (errorRedirect "Order%20not%20found", db)
    | some order =>
      if order.status ≠ "Pending" then
        (errorRedirect "Order%20already%20processed", db)
      else
        let db1 := db.saveOrder { order with status := "Paid" }
        let r := decLoop db1 (populateItems db order.items)
        match r.2 with
        | none => (successRedirect orderId, r.1)
        | some msg => (errorRedirect msg, r.1)

/-- Handler `PATCH /update-shipping/:orderId`. -/
def updateShipping (db : Db) (orderId : Nat) : Response × Db :=
  match db.findOrder orderId with
  | none => (Response.json 404 "Order not found.", db)
  | some order =>
    if order.status ≠ "Paid" then
      (Response.json 400 "Only paid orders can be marked as shipping.", db)
    else
      (Response.json 200 "Order status updated to Shipping.",
        db.saveOrder { order with status := "Shipping" })

/-- The public base URL under which delivery images are served. -/
def baseUrl : String := "https://mma301-project-be.onrender.com"

/-- Handler `POST /confirm-delivery/:orderId`; `file` is `req.file` (the
uploaded image's stored filename), `none` when no file was attached. -/
def confirmDelivery (db : Db) (orderId : Nat) (file : Option String) : Response × Db :=
  match db.findOrder orderId with
  | none => (Response.json 404 "Order not found.", db)
  | some order =>
    if order.status ≠ "Shipping" then
      (Response.json 400 "Only shipping orders can be confirmed as delivered.", db)
    else
      match file with
      | none => (Response.json 400 "Delivery confirmation image is required.", db)
      | some filename =>
        (Response.json 200 "Order delivery confirmed.",
          db.saveOrder { order with
            imageConfirmDelivered :=
              some (baseUrl ++ "/uploads/deliveryConfirmation/" ++ filename),
            status := "Delivered" })

/-- The success message of `POST /cancel-order/:orderId`. -/
def cancelMsg : String :=
  "Đơn hàng đã được hủy và hoàn tiền 50%. Số lượng sản phẩm đã được cập nhật vào kho."

/-- Handler `POST /cancel-order/:orderId`.  Faithful to the source: the
`for` loop over `order.items` sets the status, sends the email and returns
the 200 response *inside* its body, so at most the first line item is ever
processed; with an empty item list no response is sent at all; a populated
product reference that resolved to `null` throws on `item.product._id`,
which the catch turns into a 500. -/
def cancelOrder (db : Db) (orderId : Nat) : Response × Db :=
  match db.findOrder orderId with
  | none => (Response.json 404 "Không tìm thấy đơn hàng", db)
  | some order =>
    if order.status ≠ "Paid" then
      (Response.json 400 "Only paid orders can be canceled.", db)
    else
      let refundAmount := order.totalAmount * (1 / 2 : ℚ)
      match db.findAccount order.account with
      | none => (Response.json 500 "Cannot read properties of null (reading balance)", db)
      | some account =>
        let db1 := db.saveAccount { account with balance := account.balance + refundAmount }
        let db2 :=
          match db1.findAdmin with
          | none => db1
          | some adminAccount =>
            db1.saveAccount { adminAccount with balance := adminAccount.balance + refundAmount }
        match order.items with
        | [] => (Response.noResponse, db2)
        | it :: _ =>
          match db.findProduct it.product with
          | none => (Response.json 500 nullIdMsg, db2)
          | some p =>
            let db3 :=
              match db2.findProduct p._id with
              | none => db2
              | some product =>
                db2.saveProduct { product with quantity := product.quantity + it.quantity }
            (Response.jsonRefund 200 cancelMsg refundAmount,
              db3.saveOrder { order with status := "Canceled" })

/-- The item loop of `/add-to-cart`: resolve each product, fail 404 when
missing, fail 400 when stock is below the requested quantity, otherwise
accumulate `quantity * price` into the total and collect the order item. -/
def cartLoop (db : Db) : List OrderItem → ℚ → List OrderItem → Except Response (ℚ × List OrderItem)
  | [], total, acc => Except.ok (total, acc)
  | it :: rest, total, acc =>
    match db.findProduct it.product with
    | none =>
      Except.error (Response.json 404
        ("Product with ID " ++ toString it.product ++ " not found."))
    | some p =>
      if p.quantity < it.quantity then
        Except.error (Response.json 400 ("Not enough stock for " ++ p.name))
      else
        cartLoop db rest (total + (it.quantity : ℚ) * p.price)
          (acc ++ [{ product := p._id, quantity := it.quantity }])

/-- Handler `POST /add-to-cart` with body `{account, items}`; `newOrderId` is
the `_id` Mongoose assigns to the freshly constructed order document. -/
def addToCart (db : Db) (account : Option Nat) (items : List OrderItem)
    (newOrderId : Nat) : Response × Db :=
  match account, items with
  | none, _ => (Response.json 400 "An order must contain at least one product.", db)
  | some _, [] => (Response.json 400 "An order must contain at least one product.", db)
  | some aid, it :: rest =>
    match db.findAccount aid with
    | none => (Response.json 404 "Account not found.", db)
    | some _ =>
      match cartLoop db (it :: rest) 0 [] with
      | Except.error r => (r, db)
      | Except.ok (totalAmount, orderItems) =>
        (Response.json 201 "VNPAY payment URL created",
          db.insertOrder
            { _id := newOrderId, account := aid, items := orderItems,
              totalAmount := totalAmount, status := "Pending",
              imageConfirmDelivered := none })

/-- Handler `PATCH /add-balance` with body `{account, amount}` (the only
other handler that writes to the database; it touches accounts only). -/
def addBalance (db : Db) (account : Option Nat) (amount : ℚ) : Response × Db :=
  match account with
  | none => (Response.json 400 "Invalid request.", db)
  | some aid =>
    if amount ≤ 0 then (Response.json 400 "Invalid request.", db)
    else
      match db.findAccount aid with
      | none => (Response.json 404 "Account not found.", db)
      | some accountDetails =>
        (Response.json 200 "Balance added successfully.",
          db.saveAccount { accountDetails with balance := accountDetails.balance + amount })

/-! ### Persisted-write trace of `/confirm-payment` (for the side-effect
ordering property): the handler's success path as the sequence of `save`
calls it issues, in program order. -/

/-- One persisted write: a `save` of an order, product or account document. -/
inductive WriteOp where
  | wOrder (o : Order)
  | wProduct (p : Product)
  | wAccount (a : Account)
  deriving DecidableEq, Repr

/-- Apply one persisted write to the database. -/
def applyWrite (db : Db) : WriteOp → Db
  | WriteOp.wOrder o => db.saveOrder o
  | WriteOp.wProduct p => db.saveProduct p
  | WriteOp.wAccount a => db.saveAccount a

/-- Apply a sequence of persisted writes in order. -/
def applyWrites (db : Db) (ops : List WriteOp) : Db := ops.foldl applyWrite db

/-- The product writes issued by the stock-decrement loop of
`/confirm-payment`, in program order (the loop stops at a throw). -/
def decWrites : Db → List (OrderItem × Option Product) → List WriteOp
  | _, [] => []
  | db, (it, pop) :: rest =>
    match pop with
    | none => []
    | some p =>
      match db.findProduct p._id with
      | none => decWrites db rest
      | some product =>
        let p1 := { product with quantity := product.quantity - it.quantity }
        WriteOp.wProduct p1 :: decWrites (db.saveProduct p1) rest

/-- The full sequence of `save` calls `/confirm-payment` issues, in program
order: none on the guard paths; on the success path the order-status save
followed by the per-item product saves. -/
def confirmPaymentWrites (db : Db) (orderId : Nat) (vnp_ResponseCode : String) : List WriteOp :=
  if vnp_ResponseCode ≠ "00" then []
  else
    match db.findOrder orderId with
    | none => []
    | some order =>
      if order.status ≠ "Pending" then []
      else
        let paid := { order with status := "Paid" }
        WriteOp.wOrder paid :: decWrites (db.saveOrder paid) (populateItems db order.items)

/-- The total the spec describes: the sum over the submitted items of the
product's price times the requested quantity. -/
def priceOf (db : Db) (pid : Nat) : ℚ :=
  match db.findProduct pid with
  | none => 0
  | some p => p.price

/-- Sum over items of `price × quantity` (the spec's formula for the total). -/
def specTotal (db : Db) (items : List OrderItem) : ℚ :=
  (items.map (fun it => (it.quantity : ℚ) * priceOf db it.product)).sum

/-- The concrete database of the C2 witness: one product in stock and one
already-`Paid` single-item order. -/
def w2order : Order :=
  { _id := 100, account := 1, items := [{ product := 10, quantity := 2 }],
    totalAmount := 10, status := "Paid", imageConfirmDelivered := none }

/-- See `w2order`. -/
def w2db : Db :=
  { accounts := [],
    products := [{ _id := 10, name := "P1", price := 5, quantity := 3 }],
    orders := [w2order] }

/-- The concrete database of the C9 witness: stock 3, ordered quantity 5. -/
def w9order : Order :=
  { _id := 101, account := 1, items := [{ product := 10, quantity := 5 }],
    totalAmount := 25, status := "Pending", imageConfirmDelivered := none }

/-- See `w9order`. -/
def w9db : Db :=
  { accounts := [],
    products := [{ _id := 10, name := "P1", price := 5, quantity := 3 }],
    orders := [w9order] }

/-- The database state of `/cancel-order` after the two balance credits: the
owning account is credited half the total, then the first admin account (if
any, looked up after the first save) is credited the same amount. -/
def cancelDb2 (db : Db) (order : Order) (account : Account) : Db :=
  let refundAmount := order.totalAmount * (1 / 2 : ℚ)
  let db1 := db.saveAccount { account with balance := account.balance + refundAmount }
  match db1.findAdmin with
  | none => db1
  | some adminAccount =>
    db1.saveAccount { adminAccount with balance := adminAccount.balance + refundAmount }

/-- The single stock restore `/cancel-order` performs (first line item only),
guarded by the product still being found. -/
def cancelDb3 (db2 : Db) (it : OrderItem) (p : Product) : Db :=
  match db2.findProduct p._id with
  | none => db2
  | some product => db2.saveProduct { product with quantity := product.quantity + it.quantity }

/-- A two-line-item `Paid` order (totalAmount 31 = 2·5 + 3·7), for exercising
the cancel handler's stock-restore loop. -/
def c1order : Order :=
  { _id := 100, account := 1,
    items := [{ product := 10, quantity := 2 }, { product := 11, quantity := 3 }],
    totalAmount := 31, status := "Paid", imageConfirmDelivered := none }

/-- See `c1order`: customer, admin, the two products in stock, the order. -/
def c1db : Db :=
  { accounts := [{ _id := 1, email := "a@x", balance := 100, role := "customer" },
                 { _id := 2, email := "adm@x", balance := 0, role := "admin" }],
    products := [{ _id := 10, name := "P1", price := 5, quantity := 3 },
                 { _id := 11, name := "P2", price := 7, quantity := 4 }],
    orders := [c1order] }

/-- A `Pending` order whose only line item references product 99, which does
not exist in the database (dangling reference). -/
def c10order : Order :=
  { _id := 102, account := 1, items := [{ product := 99, quantity := 1 }],
    totalAmount := 5, status := "Pending", imageConfirmDelivered := none }

/-- See `c10order`. -/
def c10db : Db :=
  { accounts := [{ _id := 1, email := "a@x", balance := 100, role := "customer" }],
    products := [],
    orders := [c10order] }

/-- A `Paid` order with the same dangling product reference, for the cancel
handler. -/
def c10paidOrder : Order :=
  { _id := 103, account := 1, items := [{ product := 99, quantity := 1 }],
    totalAmount := 5, status := "Paid", imageConfirmDelivered := none }

/-- See `c10paidOrder`. -/
def c10cancelDb : Db :=
  { accounts := [{ _id := 1, email := "a@x", balance := 100, role := "customer" },
                 { _id := 2, email := "adm@x", balance := 0, role := "admin" }],
    products := [],
    orders := [c10paidOrder] }

/-- A database for the add-to-cart witness: one account, two products. -/
def w4db : Db :=
  { accounts := [{ _id := 1, email := "a@x", balance := 100, role := "customer" }],
    products := [{ _id := 10, name := "P1", price := 5, quantity := 3 },
                 { _id := 11, name := "P2", price := 7, quantity := 4 }],
    orders := [] }

/-- A one-item `Pending` order for the write-trace witness. -/
def w7order : Order :=
  { _id := 104, account := 1, items := [{ product := 10, quantity := 2 }],
    totalAmount := 10, status := "Pending", imageConfirmDelivered := none }

/-- See `w7order`. -/
def w7db : Db :=
  { accounts := [],
    products := [{ _id := 10, name := "P1", price := 5, quantity := 3 }],
    orders := [w7order] }

/-- A `Paid` single-item order for the forward-only-transition witness. -/
def w3order : Order :=
  { _id := 105, account := 1, items := [{ product := 10, quantity := 1 }],
    totalAmount := 5, status := "Paid", imageConfirmDelivered := none }

/-- See `w3order`. -/
def w3db : Db :=
  { accounts := [{ _id := 1, email := "a@x", balance := 100, role := "customer" }],
    products := [{ _id := 10, name := "P1", price := 5, quantity := 3 }],
    orders := [w3order] }

/-! ### Lookup / save lemmas -/

theorem find_map_replace {α : Type} (idf : α → Nat) (l : List α) (x : α) (j : Nat) :
    (l.map (fun q => if idf q == idf x then x else q)).find? (fun q => idf q == j)
      = if j == idf x then (l.find? (fun q => idf q == j)).map (fun _ => x)
        else l.find? (fun q => idf q == j) := by
  induction l with
  | nil => by_cases h : j = idf x <;> simp [h]
  | cons a t ih =>
    rw [List.map_cons]
    by_cases ha : idf a = idf x
    · rw [if_pos (by simp [ha])]
      by_cases hj : j = idf x
      · rw [List.find?_cons_of_pos _ (by simp [hj]),
          List.find?_cons_of_pos _ (by simp [ha, hj]), if_pos (by simp [hj])]
        rfl
      · rw [List.find?_cons_of_neg _ (by simp; exact fun h => hj h.symm),
          List.find?_cons_of_neg _ (by simp [ha]; exact fun h => hj h.symm),
          ih, if_neg (by simp [hj])]
    · rw [if_neg (by simp [ha])]
      by_cases hj : idf a = j
      · rw [List.find?_cons_of_pos _ (by simp [hj]),
          List.find?_cons_of_pos _ (by simp [hj]),
          if_neg (by simp; exact fun h => ha (hj.trans h))]
      · rw [List.find?_cons_of_neg _ (by simp [hj]),
          List.find?_cons_of_neg _ (by simp [hj]), ih]

theorem findOrder_saveOrder (db : Db) (o : Order) (j : Nat) :
    (db.saveOrder o).findOrder j
      = if j == o._id then (db.findOrder j).map (fun _ => o) else db.findOrder j :=
  find_map_replace (α := Order) (fun q => q._id) db.orders o j

theorem findProduct_saveProduct (db : Db) (p : Product) (j : Nat) :
    (db.saveProduct p).findProduct j
      = if j == p._id then (db.findProduct j).map (fun _ => p) else db.findProduct j :=
  find_map_replace (α := Product) (fun q => q._id) db.products p j

theorem findAccount_saveAccount (db : Db) (a : Account) (j : Nat) :
    (db.saveAccount a).findAccount j
      = if j == a._id then (db.findAccount j).map (fun _ => a) else db.findAccount j :=
  find_map_replace (α := Account) (fun b => b._id) db.accounts a j

theorem findProduct_saveOrder (db : Db) (o : Order) (j : Nat) :
    (db.saveOrder o).findProduct j = db.findProduct j := rfl

theorem findOrder_saveProduct (db : Db) (p : Product) (j : Nat) :
    (db.saveProduct p).findOrder j = db.findOrder j := rfl

theorem findOrder_saveAccount (db : Db) (a : Account) (j : Nat) :
    (db.saveAccount a).findOrder j = db.findOrder j := rfl

theorem findProduct_saveAccount (db : Db) (a : Account) (j : Nat) :
    (db.saveAccount a).findProduct j = db.findProduct j := rfl

theorem findProduct_id (db : Db) (pid : Nat) (p : Product)
    (h : db.findProduct pid = some p) : p._id = pid := by
  have := List.find?_some h
  simpa using this

/-! ### Shared lemmas about the handlers -/

theorem findOrder_id (db : Db) (oid : Nat) (o : Order)
    (h : db.findOrder oid = some o) : o._id = oid := by
  have := List.find?_some h
  simpa using this

theorem findAccount_id (db : Db) (aid : Nat) (a : Account)
    (h : db.findAccount aid = some a) : a._id = aid := by
  have := List.find?_some h
  simpa using this

theorem findOrder_congr_orders (d1 d2 : Db) (j : Nat) (h : d1.orders = d2.orders) :
    d1.findOrder j = d2.findOrder j := by
  unfold Db.findOrder
  rw [h]

/-- The stock-decrement loop performs only product saves, so it leaves the
`orders` collection untouched. -/
theorem decLoop_orders (pairs : List (OrderItem × Option Product)) (db : Db) :
    (decLoop db pairs).1.orders = db.orders := by
  induction pairs generalizing db with
  | nil => rfl
  | cons pr rest ih =>
    obtain ⟨it, pop⟩ := pr
    cases pop with
    | none => rfl
    | some p =>
      cases hf : db.findProduct p._id with
      | none => simpa [decLoop, hf] using ih db
      | some product => simpa [decLoop, hf] using ih _

/-- The stock-decrement loop also leaves the `accounts` collection untouched. -/
theorem decLoop_accounts (pairs : List (OrderItem × Option Product)) (db : Db) :
    (decLoop db pairs).1.accounts = db.accounts := by
  induction pairs generalizing db with
  | nil => rfl
  | cons pr rest ih =>
    obtain ⟨it, pop⟩ := pr
    cases pop with
    | none => rfl
    | some p =>
      cases hf : db.findProduct p._id with
      | none => simpa [decLoop, hf] using ih db
      | some product => simpa [decLoop, hf] using ih _

/-- Behaviour of the stock-decrement loop when every line item's product
exists and the product references are pairwise distinct: it finishes without
throwing, decrements each referenced product's stock by the item's quantity,
and leaves every other product unchanged. -/
theorem decLoop_ok (items : List OrderItem) (db : Db)
    (hnd : (items.map (fun it => it.product)).Nodup)
    (hall : ∀ it ∈ items, (db.findProduct it.product).isSome) :
    (decLoop db (populateItems db items)).2 = none
    ∧ (∀ it ∈ items, ∀ p, db.findProduct it.product = some p →
        (decLoop db (populateItems db items)).1.findProduct it.product
          = some { p with quantity := p.quantity - it.quantity })
    ∧ (∀ pid, pid ∉ items.map (fun it => it.product) →
        (decLoop db (populateItems db items)).1.findProduct pid = db.findProduct pid) := by
  induction items generalizing db with
  | nil =>
    refine ⟨rfl, ?_, ?_⟩
    · intro it hit; exact absurd hit (List.not_mem_nil it)
    · intro pid _; rfl
  | cons it rest ih =>
    rw [List.map_cons, List.nodup_cons] at hnd
    obtain ⟨hout, hndr⟩ := hnd
    obtain ⟨p, hp⟩ := Option.isSome_iff_exists.mp (hall it (List.mem_cons_self it rest))
    have hpid : p._id = it.product := findProduct_id db it.product p hp
    have hstep : populateItems db (it :: rest)
        = (it, some p) :: populateItems db rest := by
      simp [populateItems, hp]
    set p1 : Product := { p with quantity := p.quantity - it.quantity } with hp1
    have hfind : db.findProduct p._id = some p := by rw [hpid]; exact hp
    have hred : decLoop db (populateItems db (it :: rest))
        = decLoop (db.saveProduct p1) (populateItems db rest) := by
      rw [hstep]
      simp [decLoop, hfind]
    have hprodeq : ∀ it2 ∈ rest, (db.saveProduct p1).findProduct it2.product
        = db.findProduct it2.product := by
      intro it2 h2
      rw [findProduct_saveProduct]
      have : it2.product ≠ p1._id := by
        show it2.product ≠ p._id
        rw [hpid]
        intro hcontra
        exact hout (hcontra ▸ List.mem_map_of_mem (fun x => x.product) h2)
      simp [this]
    have hpop2 : populateItems db rest = populateItems (db.saveProduct p1) rest := by
      unfold populateItems
      exact List.map_congr_left (fun it2 h2 => by rw [hprodeq it2 h2])
    have hall2 : ∀ it2 ∈ rest, ((db.saveProduct p1).findProduct it2.product).isSome := by
      intro it2 h2
      rw [hprodeq it2 h2]
      exact hall it2 (List.mem_cons_of_mem it h2)
    obtain ⟨ihnone, ihdec, ihother⟩ := ih (db.saveProduct p1) hndr hall2
    rw [hred, hpop2]
    refine ⟨ihnone, ?_, ?_⟩
    · intro it2 hit2 q hq
      rcases List.mem_cons.mp hit2 with heq | hmem
      · subst heq
        have hq' : p = q := by rw [hp] at hq; exact Option.some_inj.mp hq
        subst hq'
        rw [ihother it2.product hout, findProduct_saveProduct]
        rw [if_pos (by simp [hpid]), hp]
        rfl
      · have hq2 : (db.saveProduct p1).findProduct it2.product = some q := by
          rw [hprodeq it2 hmem]; exact hq
        exact ihdec it2 hmem q hq2
    · intro pid hpid2
      rw [List.map_cons, List.mem_cons] at hpid2
      push_neg at hpid2
      obtain ⟨hne1, hne2⟩ := hpid2
      rw [ihother pid hne2, findProduct_saveProduct]
      have : (pid == p1._id) = false := by
        show (pid == p._id) = false
        simp [hpid, hne1]
      simp [this]

/-- Every write the stock-decrement loop issues is a product save. -/
theorem decWrites_products (pairs : List (OrderItem × Option Product)) (db : Db) :
    ∀ op ∈ decWrites db pairs, ∃ p, op = WriteOp.wProduct p := by
  induction pairs generalizing db with
  | nil => intro op hop; exact absurd hop (List.not_mem_nil op)
  | cons pr rest ih =>
    obtain ⟨it, pop⟩ := pr
    intro op hop
    cases pop with
    | none => exact absurd hop (List.not_mem_nil op)
    | some p =>
      cases hf : db.findProduct p._id with
      | none =>
        rw [decWrites, hf] at hop
        exact ih db op hop
      | some product =>
        rw [decWrites, hf] at hop
        rcases List.mem_cons.mp hop with heq | hmem
        · exact ⟨_, heq⟩
        · exact ih _ op hmem

/-- Replaying the loop's write trace reproduces the database the loop leaves
behind. -/
theorem applyWrites_decWrites (pairs : List (OrderItem × Option Product)) (db : Db) :
    applyWrites db (decWrites db pairs) = (decLoop db pairs).1 := by
  induction pairs generalizing db with
  | nil => rfl
  | cons pr rest ih =>
    obtain ⟨it, pop⟩ := pr
    cases pop with
    | none => rfl
    | some p =>
      cases hf : db.findProduct p._id with
      | none =>
        rw [decWrites, decLoop, hf]
        exact ih db
      | some product =>
        rw [decWrites, decLoop, hf]
        exact ih _

theorem applyWrites_cons (db : Db) (op : WriteOp) (ops : List WriteOp) :
    applyWrites db (op :: ops) = applyWrites (applyWrite db op) ops := rfl

theorem applyWrite_wOrder (db : Db) (o : Order) :
    applyWrite db (WriteOp.wOrder o) = db.saveOrder o := rfl

/-- A sequence of product-only writes never changes the `orders` collection. -/
theorem applyWrites_products_orders (ops : List WriteOp) (db : Db)
    (h : ∀ op ∈ ops, ∃ p, op = WriteOp.wProduct p) :
    (applyWrites db ops).orders = db.orders := by
  induction ops generalizing db with
  | nil => rfl
  | cons op rest ih =>
    obtain ⟨p, hp⟩ := h op (List.mem_cons_self op rest)
    subst hp
    exact ih (db.saveProduct p) (fun op2 h2 => h op2 (List.mem_cons_of_mem _ h2))

/-- After a `saveOrder`, a successful lookup returns either the untouched
original record or the updated record (when the looked-up id is the updated
one). -/
theorem saveOrder_found (db : Db) (upd : Order) (j : Nat) (o o' : Order)
    (h : db.findOrder j = some o)
    (h2 : (db.saveOrder upd).findOrder j = some o') :
    o' = o ∨ (o' = upd ∧ j = upd._id) := by
  rw [findOrder_saveOrder] at h2
  by_cases hj : j = upd._id
  · right
    rw [if_pos (by simp [hj]), h] at h2
    exact ⟨(Option.some_inj.mp h2).symm, hj⟩
  · left
    rw [if_neg (by simp [hj]), h] at h2
    exact (Option.some_inj.mp h2).symm

/-- Lookup in the database after inserting a fresh order. -/
theorem findOrder_insertOrder (db : Db) (o : Order) (j : Nat) :
    (db.insertOrder o).findOrder j
      = (db.findOrder j).or (if o._id == j then some o else none) := by
  unfold Db.insertOrder Db.findOrder
  rw [List.find?_append]
  cases h : (o._id == j) <;> simp [List.find?, h]

/-- The item loop of `/add-to-cart`, when every product is found with enough
stock: returns the accumulated total plus `Σ quantity × price`, appending the
submitted items (product references kept verbatim) to the accumulator. -/
theorem cartLoop_ok (db : Db) (items : List OrderItem) (t0 : ℚ) (acc : List OrderItem)
    (hall : ∀ it ∈ items, ∃ p, db.findProduct it.product = some p ∧ it.quantity ≤ p.quantity) :
    cartLoop db items t0 acc = Except.ok (t0 + specTotal db items, acc ++ items) := by
  induction items generalizing t0 acc with
  | nil => simp [cartLoop, specTotal]
  | cons it rest ih =>
    obtain ⟨p, hp, hq⟩ := hall it (List.mem_cons_self it rest)
    have hpid : p._id = it.product := findProduct_id db it.product p hp
    have hnotlt : ¬(p.quantity < it.quantity) := not_lt.mpr hq
    have hitem : ({ product := p._id, quantity := it.quantity } : OrderItem) = it := by
      rw [hpid]
    rw [cartLoop, hp]
    simp only [if_neg hnotlt, hitem]
    rw [ih (t0 + (it.quantity : ℚ) * p.price) (acc ++ [it])
      (fun it2 h2 => hall it2 (List.mem_cons_of_mem it h2))]
    have htot : t0 + (it.quantity : ℚ) * p.price + specTotal db rest
        = t0 + specTotal db (it :: rest) := by
      unfold specTotal priceOf
      rw [List.map_cons, List.sum_cons, hp]
      ring
    rw [htot, List.append_assoc]
    rfl

theorem confirmPayment_badCode (db : Db) (oid : Nat) (code : String) (hc : code ≠ "00") :
    confirmPayment db oid code = (errorRedirect "Payment%20unsuccessful", db) := by
  simp [confirmPayment, hc]

theorem confirmPayment_noOrder (db : Db) (oid : Nat) (h : db.findOrder oid = none) :
    confirmPayment db oid "00" = (errorRedirect "Order%20not%20found", db) := by
  simp [confirmPayment, h]

theorem confirmPayment_notPending (db : Db) (oid : Nat) (order : Order)
    (h : db.findOrder oid = some order) (hs : order.status ≠ "Pending") :
    confirmPayment db oid "00" = (errorRedirect "Order%20already%20processed", db) := by
  simp [confirmPayment, h, hs]

theorem confirmPayment_pending_ok (db : Db) (oid : Nat) (order : Order)
    (h : db.findOrder oid = some order) (hs : order.status = "Pending")
    (hr : (decLoop (db.saveOrder { order with status := "Paid" })
        (populateItems db order.items)).2 = none) :
    confirmPayment db oid "00" = (successRedirect oid,
      (decLoop (db.saveOrder { order with status := "Paid" })
        (populateItems db order.items)).1) := by
  simp [confirmPayment, h, hs, hr]

theorem confirmPayment_pending_throw (db : Db) (oid : Nat) (order : Order) (msg : String)
    (h : db.findOrder oid = some order) (hs : order.status = "Pending")
    (hr : (decLoop (db.saveOrder { order with status := "Paid" })
        (populateItems db order.items)).2 = some msg) :
    confirmPayment db oid "00" = (errorRedirect msg,
      (decLoop (db.saveOrder { order with status := "Paid" })
        (populateItems db order.items)).1) := by
  simp [confirmPayment, h, hs, hr]

/-- The success path of `/confirm-payment` on a `Pending` order whose line
items reference distinct, existing products: the handler redirects to the
success URL, the order is persisted as `Paid`, each referenced product's
stock is decremented by the ordered quantity, all other products are
untouched, and accounts are untouched. -/
theorem confirmPayment_pending_result (db : Db) (oid : Nat) (order : Order)
    (h : db.findOrder oid = some order) (hs : order.status = "Pending")
    (hnd : (order.items.map (fun it => it.product)).Nodup)
    (hall : ∀ it ∈ order.items, (db.findProduct it.product).isSome) :
    (confirmPayment db oid "00").1 = successRedirect oid
    ∧ (confirmPayment db oid "00").2.findOrder oid = some { order with status := "Paid" }
    ∧ (∀ it ∈ order.items, ∀ p, db.findProduct it.product = some p →
        (confirmPayment db oid "00").2.findProduct it.product
          = some { p with quantity := p.quantity - it.quantity })
    ∧ (∀ pid, pid ∉ order.items.map (fun it => it.product) →
        (confirmPayment db oid "00").2.findProduct pid = db.findProduct pid)
    ∧ (confirmPayment db oid "00").2.accounts = db.accounts := by
  have hall1 : ∀ it ∈ order.items,
      ((db.saveOrder { order with status := "Paid" }).findProduct it.product).isSome :=
    fun it hit => hall it hit
  obtain ⟨hnone, hdec, hother⟩ :=
    decLoop_ok order.items (db.saveOrder { order with status := "Paid" }) hnd hall1
  have hpop : populateItems db order.items
      = populateItems (db.saveOrder { order with status := "Paid" }) order.items := rfl
  have heq := confirmPayment_pending_ok db oid order h hs (by rw [hpop]; exact hnone)
  refine ⟨by rw [heq], ?_, ?_, ?_, ?_⟩
  · rw [heq]
    have horders := decLoop_orders
      (populateItems db order.items) (db.saveOrder { order with status := "Paid" })
    rw [findOrder_congr_orders _ (db.saveOrder { order with status := "Paid" }) oid horders,
      findOrder_saveOrder]
    have hid : order._id = oid := findOrder_id db oid order h
    rw [if_pos (by simp [hid]), h]
    rfl
  · intro it hit p hp
    rw [heq, hpop]
    exact hdec it hit p hp
  · intro pid hpid
    rw [heq, hpop]
    exact hother pid hpid
  · rw [heq]
    exact decLoop_accounts _ _

theorem confirmPayment_pending_snd (db : Db) (oid : Nat) (order : Order)
    (h : db.findOrder oid = some order) (hs : order.status = "Pending") :
    (confirmPayment db oid "00").2
      = (decLoop (db.saveOrder { order with status := "Paid" })
          (populateItems db order.items)).1 := by
  cases hr : (decLoop (db.saveOrder { order with status := "Paid" })
      (populateItems db order.items)).2 with
  | none => rw [confirmPayment_pending_ok db oid order h hs hr]
  | some m => rw [confirmPayment_pending_throw db oid order m h hs hr]

theorem updateShipping_noOrder (db : Db) (oid : Nat) (h : db.findOrder oid = none) :
    updateShipping db oid = (Response.json 404 "Order not found.", db) := by
  simp [updateShipping, h]

theorem updateShipping_notPaid (db : Db) (oid : Nat) (order : Order)
    (h : db.findOrder oid = some order) (hs : order.status ≠ "Paid") :
    updateShipping db oid
      = (Response.json 400 "Only paid orders can be marked as shipping.", db) := by
  simp [updateShipping, h, hs]

theorem updateShipping_paid (db : Db) (oid : Nat) (order : Order)
    (h : db.findOrder oid = some order) (hs : order.status = "Paid") :
    updateShipping db oid
      = (Response.json 200 "Order status updated to Shipping.",
        db.saveOrder { order with status := "Shipping" }) := by
  simp [updateShipping, h, hs]

theorem confirmDelivery_noOrder (db : Db) (oid : Nat) (file : Option String)
    (h : db.findOrder oid = none) :
    confirmDelivery db oid file = (Response.json 404 "Order not found.", db) := by
  simp [confirmDelivery, h]

theorem confirmDelivery_notShipping (db : Db) (oid : Nat) (file : Option String)
    (order : Order) (h : db.findOrder oid = some order) (hs : order.status ≠ "Shipping") :
    confirmDelivery db oid file
      = (Response.json 400 "Only shipping orders can be confirmed as delivered.", db) := by
  simp [confirmDelivery, h, hs]

theorem confirmDelivery_noFile (db : Db) (oid : Nat) (order : Order)
    (h : db.findOrder oid = some order) (hs : order.status = "Shipping") :
    confirmDelivery db oid none
      = (Response.json 400 "Delivery confirmation image is required.", db) := by
  simp [confirmDelivery, h, hs]

theorem confirmDelivery_shipping (db : Db) (oid : Nat) (order : Order) (f : String)
    (h : db.findOrder oid = some order) (hs : order.status = "Shipping") :
    confirmDelivery db oid (some f)
      = (Response.json 200 "Order delivery confirmed.",
        db.saveOrder { order with
          imageConfirmDelivered := some (baseUrl ++ "/uploads/deliveryConfirmation/" ++ f),
          status := "Delivered" }) := by
  simp [confirmDelivery, h, hs]

theorem cancelOrder_noOrder (db : Db) (oid : Nat) (h : db.findOrder oid = none) :
    cancelOrder db oid = (Response.json 404 "Không tìm thấy đơn hàng", db) := by
  simp [cancelOrder, h]

theorem cancelOrder_noAccount (db : Db) (oid : Nat) (order : Order)
    (h : db.findOrder oid = some order) (hs : order.status = "Paid")
    (ha : db.findAccount order.account = none) :
    cancelOrder db oid
      = (Response.json 500 "Cannot read properties of null (reading balance)", db) := by
  simp [cancelOrder, h, hs, ha]

theorem cancelOrder_paid_empty (db : Db) (oid : Nat) (order : Order) (account : Account)
    (h : db.findOrder oid = some order) (hs : order.status = "Paid")
    (ha : db.findAccount order.account = some account)
    (hitems : order.items = []) :
    cancelOrder db oid = (Response.noResponse, cancelDb2 db order account) := by
  simp [cancelOrder, h, hs, ha, hitems, cancelDb2]

theorem cancelOrder_paid_throw (db : Db) (oid : Nat) (order : Order) (account : Account)
    (it : OrderItem) (rest : List OrderItem)
    (h : db.findOrder oid = some order) (hs : order.status = "Paid")
    (ha : db.findAccount order.account = some account)
    (hitems : order.items = it :: rest)
    (hp : db.findProduct it.product = none) :
    cancelOrder db oid = (Response.json 500 nullIdMsg, cancelDb2 db order account) := by
  simp [cancelOrder, h, hs, ha, hitems, hp, cancelDb2]

theorem cancelOrder_paid_first (db : Db) (oid : Nat) (order : Order) (account : Account)
    (it : OrderItem) (rest : List OrderItem) (p : Product)
    (h : db.findOrder oid = some order) (hs : order.status = "Paid")
    (ha : db.findAccount order.account = some account)
    (hitems : order.items = it :: rest)
    (hp : db.findProduct it.product = some p) :
    cancelOrder db oid
      = (Response.jsonRefund 200 cancelMsg (order.totalAmount * (1 / 2 : ℚ)),
        (cancelDb3 (cancelDb2 db order account) it p).saveOrder
          { order with status := "Canceled" }) := by
  simp [cancelOrder, h, hs, ha, hitems, hp, cancelDb2, cancelDb3]

theorem cancelOrder_notPaid (db : Db) (oid : Nat) (order : Order)
    (h : db.findOrder oid = some order) (hs : order.status ≠ "Paid") :
    cancelOrder db oid = (Response.json 400 "Only paid orders can be canceled.", db) := by
  simp [cancelOrder, h, hs]

theorem cancelDb2_orders (db : Db) (order : Order) (account : Account) :
    (cancelDb2 db order account).orders = db.orders := by
  simp only [cancelDb2]
  split <;> rfl

theorem cancelDb3_orders (db2 : Db) (it : OrderItem) (p : Product) :
    (cancelDb3 db2 it p).orders = db2.orders := by
  simp only [cancelDb3]
  split <;> rfl

/-! ### Which status changes each handler can make -/

theorem no_change_absurd {db : Db} {j : Nat} {o o' : Order} {C : Prop}
    (h : db.findOrder j = some o) (h2 : db.findOrder j = some o')
    (hne : o'.status ≠ o.status) : C := by
  rw [h] at h2
  exact absurd (congrArg Order.status (Option.some_inj.mp h2).symm) hne

theorem confirmPayment_status_change (db : Db) (tid j : Nat) (code : String)
    (o o' : Order)
    (h : db.findOrder j = some o)
    (h2 : (confirmPayment db tid code).2.findOrder j = some o')
    (hne : o'.status ≠ o.status) :
    o.status = "Pending" ∧ o'.status = "Paid" := by
  by_cases hc : code = "00"
  · subst hc
    cases ht : db.findOrder tid with
    | none =>
      rw [confirmPayment_noOrder db tid ht] at h2
      exact no_change_absurd h h2 hne
    | some order2 =>
      by_cases hs : order2.status = "Pending"
      · rw [confirmPayment_pending_snd db tid order2 ht hs] at h2
        rw [findOrder_congr_orders _ (db.saveOrder { order2 with status := "Paid" }) j
          (decLoop_orders _ _)] at h2
        rcases saveOrder_found db _ j o o' h h2 with heq | ⟨heq, hj⟩
        · exact absurd (congrArg Order.status heq) hne
        · have hj' : j = order2._id := hj
          have hid : order2._id = tid := findOrder_id db tid order2 ht
          rw [hj', hid, ht] at h
          have hoo : o = order2 := (Option.some_inj.mp h).symm
          exact ⟨by rw [hoo]; exact hs, by rw [heq]⟩
      · rw [confirmPayment_notPending db tid order2 ht hs] at h2
        exact no_change_absurd h h2 hne
  · rw [confirmPayment_badCode db tid code hc] at h2
    exact no_change_absurd h h2 hne

theorem updateShipping_status_change (db : Db) (tid j : Nat) (o o' : Order)
    (h : db.findOrder j = some o)
    (h2 : (updateShipping db tid).2.findOrder j = some o')
    (hne : o'.status ≠ o.status) :
    o.status = "Paid" ∧ o'.status = "Shipping" := by
  cases ht : db.findOrder tid with
  | none =>
    rw [updateShipping_noOrder db tid ht] at h2
    exact no_change_absurd h h2 hne
  | some order2 =>
    by_cases hs : order2.status = "Paid"
    · rw [updateShipping_paid db tid order2 ht hs] at h2
      rcases saveOrder_found db _ j o o' h h2 with heq | ⟨heq, hj⟩
      · exact absurd (congrArg Order.status heq) hne
      · have hj' : j = order2._id := hj
        have hid : order2._id = tid := findOrder_id db tid order2 ht
        rw [hj', hid, ht] at h
        have hoo : o = order2 := (Option.some_inj.mp h).symm
        exact ⟨by rw [hoo]; exact hs, by rw [heq]⟩
    · rw [updateShipping_notPaid db tid order2 ht hs] at h2
      exact no_change_absurd h h2 hne

theorem confirmDelivery_status_change (db : Db) (tid j : Nat) (file : Option String)
    (o o' : Order)
    (h : db.findOrder j = some o)
    (h2 : (confirmDelivery db tid file).2.findOrder j = some o')
    (hne : o'.status ≠ o.status) :
    o.status = "Shipping" ∧ o'.status = "Delivered" := by
  cases ht : db.findOrder tid with
  | none =>
    rw [confirmDelivery_noOrder db tid file ht] at h2
    exact no_change_absurd h h2 hne
  | some order2 =>
    by_cases hs : order2.status = "Shipping"
    · cases file with
      | none =>
        rw [confirmDelivery_noFile db tid order2 ht hs] at h2
        exact no_change_absurd h h2 hne
      | some f =>
        rw [confirmDelivery_shipping db tid order2 f ht hs] at h2
        rcases saveOrder_found db _ j o o' h h2 with heq | ⟨heq, hj⟩
        · exact absurd (congrArg Order.status heq) hne
        · have hj' : j = order2._id := hj
          have hid : order2._id = tid := findOrder_id db tid order2 ht
          rw [hj', hid, ht] at h
          have hoo : o = order2 := (Option.some_inj.mp h).symm
          exact ⟨by rw [hoo]; exact hs, by rw [heq]⟩
    · rw [confirmDelivery_notShipping db tid file order2 ht hs] at h2
      exact no_change_absurd h h2 hne

theorem cancelOrder_status_change (db : Db) (tid j : Nat) (o o' : Order)
    (h : db.findOrder j = some o)
    (h2 : (cancelOrder db tid).2.findOrder j = some o')
    (hne : o'.status ≠ o.status) :
    o.status = "Paid" ∧ o'.status = "Canceled" := by
  cases ht : db.findOrder tid with
  | none =>
    rw [cancelOrder_noOrder db tid ht] at h2
    exact no_change_absurd h h2 hne
  | some order2 =>
    by_cases hs : order2.status = "Paid"
    · cases ha : db.findAccount order2.account with
      | none =>
        rw [cancelOrder_noAccount db tid order2 ht hs ha] at h2
        exact no_change_absurd h h2 hne
      | some account =>
        cases hitems : order2.items with
        | nil =>
          rw [cancelOrder_paid_empty db tid order2 account ht hs ha hitems] at h2
          rw [findOrder_congr_orders _ db j (cancelDb2_orders db order2 account)] at h2
          exact no_change_absurd h h2 hne
        | cons it rest =>
          cases hp : db.findProduct it.product with
          | none =>
            rw [cancelOrder_paid_throw db tid order2 account it rest ht hs ha hitems hp] at h2
            rw [findOrder_congr_orders _ db j (cancelDb2_orders db order2 account)] at h2
            exact no_change_absurd h h2 hne
          | some p =>
            rw [cancelOrder_paid_first db tid order2 account it rest p ht hs ha hitems hp] at h2
            have hpre : (cancelDb3 (cancelDb2 db order2 account) it p).findOrder j
                = db.findOrder j := by
              rw [findOrder_congr_orders _ (cancelDb2 db order2 account) j
                (cancelDb3_orders _ _ _)]
              exact findOrder_congr_orders _ db j (cancelDb2_orders db order2 account)
            have h' : (cancelDb3 (cancelDb2 db order2 account) it p).findOrder j = some o := by
              rw [hpre]; exact h
            rcases saveOrder_found _ _ j o o' h' h2 with heq | ⟨heq, hj⟩
            · exact absurd (congrArg Order.status heq) hne
            · have hj' : j = order2._id := hj
              have hid : order2._id = tid := findOrder_id db tid order2 ht
              rw [hj', hid, ht] at h
              have hoo : o = order2 := (Option.some_inj.mp h).symm
              exact ⟨by rw [hoo]; exact hs, by rw [heq]⟩
    · rw [cancelOrder_notPaid db tid order2 ht hs] at h2
      exact no_change_absurd h h2 hne

theorem addBalance_preserves (db : Db) (acct : Option Nat) (amt : ℚ)
    (j : Nat) (o : Order) (h : db.findOrder j = some o) :
    (addBalance db acct amt).2.findOrder j = some o := by
  cases acct with
  | none => exact h
  | some aid =>
    by_cases hamt : amt ≤ 0
    · simpa [addBalance, hamt] using h
    · cases ha : db.findAccount aid with
      | none => simpa [addBalance, hamt, ha] using h
      | some a => simpa [addBalance, hamt, ha] using h

theorem addToCart_preserves (db : Db) (acct : Option Nat) (its : List OrderItem)
    (nid j : Nat) (o : Order) (h : db.findOrder j = some o) :
    (addToCart db acct its nid).2.findOrder j = some o := by
  cases acct with
  | none => exact h
  | some aid =>
    cases its with
    | nil => exact h
    | cons it rest =>
      cases ha : db.findAccount aid with
      | none => simpa [addToCart, ha] using h
      | some a =>
        cases hl : cartLoop db (it :: rest) 0 [] with
        | error r => simpa [addToCart, ha, hl] using h
        | ok pr =>
          obtain ⟨t, ois⟩ := pr
          simp only [addToCart, ha, hl]
          rw [findOrder_insertOrder, h]
          rfl

/-! ### The claims -/

/-- C5: canceling an order whose status is not `Paid` responds HTTP 400 with
the invalid-state message and leaves the database — balances, stock and the
order itself — completely unchanged. -/
theorem C5_cancel_non_paid_400_no_mutation (db : Db) (oid : Nat) (order : Order)
    (h : db.findOrder oid = some order) (hs : order.status ≠ "Paid") :
    cancelOrder db oid = (Response.json 400 "Only paid orders can be canceled.", db) := by
  simp [cancelOrder, h, hs]

/-- Witness for C5: a concrete Pending order is rejected with 400 and the
database is returned unchanged. -/
theorem C5_witness :
    cancelOrder
      { accounts := [{ _id := 1, email := "a@x", balance := 100, role := "customer" }],
        products := [{ _id := 10, name := "P1", price := 5, quantity := 3 }],
        orders := [{ _id := 100, account := 1, items := [{ product := 10, quantity := 2 }],
                     totalAmount := 10, status := "Pending", imageConfirmDelivered := none }] }
      100
      = (Response.json 400 "Only paid orders can be canceled.",
        { accounts := [{ _id := 1, email := "a@x", balance := 100, role := "customer" }],
          products := [{ _id := 10, name := "P1", price := 5, quantity := 3 }],
          orders := [{ _id := 100, account := 1, items := [{ product := 10, quantity := 2 }],
                       totalAmount := 10, status := "Pending", imageConfirmDelivered := none }] }) :=
  C5_cancel_non_paid_400_no_mutation _ _
    { _id := 100, account := 1, items := [{ product := 10, quantity := 2 }],
      totalAmount := 10, status := "Pending", imageConfirmDelivered := none }
    (by decide) (by decide)

/-- C6: for every existing order, confirming delivery with no attached file
responds HTTP 400 — via the invalid-state message when the order is not in
`Shipping` status and via the missing-image message when it is — and the
database is unchanged either way. -/
theorem C6_delivery_without_file_400 (db : Db) (oid : Nat) (order : Order)
    (h : db.findOrder oid = some order) :
    ∃ msg, confirmDelivery db oid none = (Response.json 400 msg, db) := by
  by_cases hs : order.status = "Shipping"
  · exact ⟨"Delivery confirmation image is required.", by simp [confirmDelivery, h, hs]⟩
  · exact ⟨"Only shipping orders can be confirmed as delivered.",
      by simp [confirmDelivery, h, hs]⟩

/-- Witness for C6: a concrete Shipping order with no file gets a 400 and an
unchanged database. -/
theorem C6_witness :
    ∃ msg, confirmDelivery
      { accounts := [],
        products := [],
        orders := [{ _id := 100, account := 1, items := [],
                     totalAmount := 10, status := "Shipping", imageConfirmDelivered := none }] }
      100 none
      = (Response.json 400 msg,
        { accounts := [],
          products := [],
          orders := [{ _id := 100, account := 1, items := [],
                       totalAmount := 10, status := "Shipping", imageConfirmDelivered := none }] }) :=
  C6_delivery_without_file_400 _ _
    { _id := 100, account := 1, items := [], totalAmount := 10,
      status := "Shipping", imageConfirmDelivered := none }
    (by decide)

/-- C2: calling confirm-payment with the success code on an order that is no
longer `Pending` (e.g. a second callback after a successful first one) is a
no-op — it redirects with the already-processed message and returns the
database unchanged — while the first call on a `Pending` order transitions it
to `Paid` and decrements each line item's product stock. -/
theorem C2_confirm_payment_idempotent (db : Db) (oid : Nat) (order : Order)
    (h : db.findOrder oid = some order) :
    (order.status ≠ "Pending" →
        confirmPayment db oid "00" = (errorRedirect "Order%20already%20processed", db))
    ∧ (order.status = "Pending" →
        (order.items.map (fun it => it.product)).Nodup →
        (∀ it ∈ order.items, (db.findProduct it.product).isSome) →
        (confirmPayment db oid "00").1 = successRedirect oid
        ∧ (confirmPayment db oid "00").2.findOrder oid = some { order with status := "Paid" }
        ∧ ∀ it ∈ order.items, ∀ p, db.findProduct it.product = some p →
            (confirmPayment db oid "00").2.findProduct it.product
              = some { p with quantity := p.quantity - it.quantity }) := by
  constructor
  · exact fun hs => confirmPayment_notPending db oid order h hs
  · intro hs hnd hall
    obtain ⟨h1, h2, h3, _, _⟩ := confirmPayment_pending_result db oid order h hs hnd hall
    exact ⟨h1, h2, h3⟩

/-- Witness for C2: instantiated at a database holding a `Paid` order, so the
second-callback branch concretely applies. -/
theorem C2_witness :
    (w2order.status ≠ "Pending" →
        confirmPayment w2db 100 "00" = (errorRedirect "Order%20already%20processed", w2db))
    ∧ (w2order.status = "Pending" →
        (w2order.items.map (fun it => it.product)).Nodup →
        (∀ it ∈ w2order.items, (w2db.findProduct it.product).isSome) →
        (confirmPayment w2db 100 "00").1 = successRedirect 100
        ∧ (confirmPayment w2db 100 "00").2.findOrder 100
            = some { w2order with status := "Paid" }
        ∧ ∀ it ∈ w2order.items, ∀ p, w2db.findProduct it.product = some p →
            (confirmPayment w2db 100 "00").2.findProduct it.product
              = some { p with quantity := p.quantity - it.quantity }) :=
  C2_confirm_payment_idempotent w2db 100 w2order (by decide)

/-- C8: the payment-confirmation handler never responds with JSON: on every
input its response is an HTTP redirect, and on every non-success outcome the
redirect URL carries `status=error` and a message in its query string. -/
theorem C8_confirm_payment_only_redirects (db : Db) (oid : Nat) (code : String) :
    (∃ u, (confirmPayment db oid code).1 = Response.redirect u)
    ∧ ((confirmPayment db oid code).1 ≠ successRedirect oid →
        ∃ m, (confirmPayment db oid code).1 = errorRedirect m) := by
  by_cases hc : code = "00"
  · subst hc
    cases ho : db.findOrder oid with
    | none =>
      rw [confirmPayment_noOrder db oid ho]
      exact ⟨⟨_, rfl⟩, fun _ => ⟨_, rfl⟩⟩
    | some order =>
      by_cases hs : order.status = "Pending"
      · cases hr : (decLoop (db.saveOrder { order with status := "Paid" })
            (populateItems db order.items)).2 with
        | none =>
          rw [confirmPayment_pending_ok db oid order ho hs hr]
          exact ⟨⟨_, rfl⟩, fun hne => absurd rfl hne⟩
        | some msg =>
          rw [confirmPayment_pending_throw db oid order msg ho hs hr]
          exact ⟨⟨_, rfl⟩, fun _ => ⟨_, rfl⟩⟩
      · rw [confirmPayment_notPending db oid order ho hs]
        exact ⟨⟨_, rfl⟩, fun _ => ⟨_, rfl⟩⟩
  · rw [confirmPayment_badCode db oid code hc]
    exact ⟨⟨_, rfl⟩, fun _ => ⟨_, rfl⟩⟩

/-- C9: confirm-payment applies the stock decrement unconditionally, with no
sufficiency re-check: on a `Pending` order whose product's stock is already
below the ordered quantity, confirmation still succeeds (success redirect)
and the product's stock goes negative. -/
theorem C9_no_stock_recheck (db : Db) (oid : Nat) (order : Order)
    (it : OrderItem) (p : Product)
    (h : db.findOrder oid = some order) (hs : order.status = "Pending")
    (hitems : order.items = [it])
    (hp : db.findProduct it.product = some p)
    (hlow : p.quantity < it.quantity) :
    (confirmPayment db oid "00").1 = successRedirect oid
    ∧ (confirmPayment db oid "00").2.findProduct it.product
        = some { p with quantity := p.quantity - it.quantity }
    ∧ p.quantity - it.quantity < 0 := by
  have hnd : (order.items.map (fun x => x.product)).Nodup := by
    rw [hitems]; simp
  have hall : ∀ x ∈ order.items, (db.findProduct x.product).isSome := by
    rw [hitems]
    intro x hx
    rw [List.mem_singleton] at hx
    subst hx
    rw [hp]; rfl
  obtain ⟨h1, _, h3, _, _⟩ := confirmPayment_pending_result db oid order h hs hnd hall
  exact ⟨h1, h3 it (by rw [hitems]; exact List.mem_singleton_self it) p hp,
    sub_neg.mpr hlow⟩

/-- C3: across all handlers, an order's status only ever changes along
Pending→Paid (confirm-payment), Paid→Shipping (update-shipping),
Shipping→Delivered (confirm-delivery) or Paid→Canceled (cancel-order), and
add-to-cart never alters an existing order, so no Pending→Canceled,
Shipping→Canceled, or backward transition exists. -/
theorem C3_forward_only_transitions (db : Db) (j : Nat) (o o' : Order)
    (h : db.findOrder j = some o) :
    (∀ tid code, (confirmPayment db tid code).2.findOrder j = some o' →
        o'.status ≠ o.status → o.status = "Pending" ∧ o'.status = "Paid")
    ∧ (∀ tid, (updateShipping db tid).2.findOrder j = some o' →
        o'.status ≠ o.status → o.status = "Paid" ∧ o'.status = "Shipping")
    ∧ (∀ tid file, (confirmDelivery db tid file).2.findOrder j = some o' →
        o'.status ≠ o.status → o.status = "Shipping" ∧ o'.status = "Delivered")
    ∧ (∀ tid, (cancelOrder db tid).2.findOrder j = some o' →
        o'.status ≠ o.status → o.status = "Paid" ∧ o'.status = "Canceled")
    ∧ (∀ acct its nid, (addToCart db acct its nid).2.findOrder j = some o' → o' = o)
    ∧ (∀ acct amt, (addBalance db acct amt).2.findOrder j = some o' → o' = o) :=
  ⟨fun tid code h2 hne => confirmPayment_status_change db tid j code o o' h h2 hne,
   fun tid h2 hne => updateShipping_status_change db tid j o o' h h2 hne,
   fun tid file h2 hne => confirmDelivery_status_change db tid j file o o' h h2 hne,
   fun tid h2 hne => cancelOrder_status_change db tid j o o' h h2 hne,
   fun acct its nid h2 => by
     rw [addToCart_preserves db acct its nid j o h] at h2
     exact (Option.some_inj.mp h2).symm,
   fun acct amt h2 => by
     rw [addBalance_preserves db acct amt j o h] at h2
     exact (Option.some_inj.mp h2).symm⟩

/-- Witness for C3: instantiated at a concrete database holding one `Paid`
order, with the order updated to `Shipping` as the candidate after-state. -/
theorem C3_witness :
    (∀ tid code, (confirmPayment w3db tid code).2.findOrder 105
          = some { w3order with status := "Shipping" } →
        ({ w3order with status := "Shipping" } : Order).status ≠ w3order.status →
        w3order.status = "Pending"
          ∧ ({ w3order with status := "Shipping" } : Order).status = "Paid")
    ∧ (∀ tid, (updateShipping w3db tid).2.findOrder 105
          = some { w3order with status := "Shipping" } →
        ({ w3order with status := "Shipping" } : Order).status ≠ w3order.status →
        w3order.status = "Paid"
          ∧ ({ w3order with status := "Shipping" } : Order).status = "Shipping")
    ∧ (∀ tid file, (confirmDelivery w3db tid file).2.findOrder 105
          = some { w3order with status := "Shipping" } →
        ({ w3order with status := "Shipping" } : Order).status ≠ w3order.status →
        w3order.status = "Shipping"
          ∧ ({ w3order with status := "Shipping" } : Order).status = "Delivered")
    ∧ (∀ tid, (cancelOrder w3db tid).2.findOrder 105
          = some { w3order with status := "Shipping" } →
        ({ w3order with status := "Shipping" } : Order).status ≠ w3order.status →
        w3order.status = "Paid"
          ∧ ({ w3order with status := "Shipping" } : Order).status = "Canceled")
    ∧ (∀ acct its nid, (addToCart w3db acct its nid).2.findOrder 105
          = some { w3order with status := "Shipping" } →
        ({ w3order with status := "Shipping" } : Order) = w3order)
    ∧ (∀ acct amt, (addBalance w3db acct amt).2.findOrder 105
          = some { w3order with status := "Shipping" } →
        ({ w3order with status := "Shipping" } : Order) = w3order) :=
  C3_forward_only_transitions w3db 105 w3order { w3order with status := "Shipping" }
    (by decide)

/-- C7: on the success path of confirm-payment, the persisted-write trace
starts with the order-status save (`Paid`), every later write is a product
stock save, replaying any non-empty prefix of the trace (an interruption
after the status save, before or during the item loop) yields a database
whose order is already `Paid`, and replaying the whole trace reproduces the
handler's final database. -/
theorem C7_status_persisted_before_stock (db : Db) (oid : Nat) (order : Order)
    (h : db.findOrder oid = some order) (hs : order.status = "Pending") :
    confirmPaymentWrites db oid "00"
      = WriteOp.wOrder { order with status := "Paid" }
        :: decWrites (db.saveOrder { order with status := "Paid" })
            (populateItems db order.items)
    ∧ (∀ op ∈ decWrites (db.saveOrder { order with status := "Paid" })
          (populateItems db order.items), ∃ p, op = WriteOp.wProduct p)
    ∧ (∀ k, 1 ≤ k →
        (applyWrites db ((confirmPaymentWrites db oid "00").take k)).findOrder oid
          = some { order with status := "Paid" })
    ∧ applyWrites db (confirmPaymentWrites db oid "00") = (confirmPayment db oid "00").2 := by
  have hid : order._id = oid := findOrder_id db oid order h
  have hcw : confirmPaymentWrites db oid "00"
      = WriteOp.wOrder { order with status := "Paid" }
        :: decWrites (db.saveOrder { order with status := "Paid" })
            (populateItems db order.items) := by
    simp [confirmPaymentWrites, h, hs]
  refine ⟨hcw, decWrites_products _ _, ?_, ?_⟩
  · intro k hk
    obtain ⟨m, rfl⟩ : ∃ m, k = m + 1 := ⟨k - 1, (Nat.succ_pred_eq_of_pos hk).symm⟩
    rw [hcw, List.take_succ_cons, applyWrites_cons, applyWrite_wOrder]
    rw [findOrder_congr_orders _ (db.saveOrder { order with status := "Paid" }) oid
      (applyWrites_products_orders _ _
        (fun op hop => decWrites_products _ _ op (List.take_subset _ _ hop)))]
    rw [findOrder_saveOrder, if_pos (by simp [hid]), h]
    rfl
  · rw [hcw, applyWrites_cons, applyWrite_wOrder, applyWrites_decWrites]
    exact (confirmPayment_pending_snd db oid order h hs).symm

/-- Witness for C7: the trace of a concrete Pending one-item order. -/
theorem C7_witness :
    confirmPaymentWrites w7db 104 "00"
      = WriteOp.wOrder { w7order with status := "Paid" }
        :: decWrites (w7db.saveOrder { w7order with status := "Paid" })
            (populateItems w7db w7order.items)
    ∧ (∀ op ∈ decWrites (w7db.saveOrder { w7order with status := "Paid" })
          (populateItems w7db w7order.items), ∃ p, op = WriteOp.wProduct p)
    ∧ (∀ k, 1 ≤ k →
        (applyWrites w7db ((confirmPaymentWrites w7db 104 "00").take k)).findOrder 104
          = some { w7order with status := "Paid" })
    ∧ applyWrites w7db (confirmPaymentWrites w7db 104 "00")
        = (confirmPayment w7db 104 "00").2 :=
  C7_status_persisted_before_stock w7db 104 w7order (by decide) (by decide)

/-- C4: a valid cart submission (existing account, non-empty items, every
product found with sufficient stock) creates an order whose `totalAmount` is
the sum over items of price × quantity and whose status is `Pending`. -/
theorem C4_add_to_cart_total_pending (db : Db) (aid : Nat) (acct : Account)
    (items : List OrderItem) (newId : Nat)
    (hacct : db.findAccount aid = some acct)
    (hne : items ≠ [])
    (hall : ∀ it ∈ items, ∃ p, db.findProduct it.product = some p ∧ it.quantity ≤ p.quantity)
    (hfresh : db.findOrder newId = none) :
    (addToCart db (some aid) items newId).1 = Response.json 201 "VNPAY payment URL created"
    ∧ (addToCart db (some aid) items newId).2.findOrder newId
        = some { _id := newId, account := aid, items := items,
                 totalAmount := specTotal db items, status := "Pending",
                 imageConfirmDelivered := none } := by
  obtain ⟨it, rest, rfl⟩ : ∃ a l, items = a :: l := by
    cases items with
    | nil => exact absurd rfl hne
    | cons a l => exact ⟨a, l, rfl⟩
  have hloop : cartLoop db (it :: rest) 0 []
      = Except.ok (specTotal db (it :: rest), it :: rest) := by
    have := cartLoop_ok db (it :: rest) 0 [] hall
    simpa using this
  constructor
  · simp [addToCart, hacct, hloop]
  · simp only [addToCart, hacct, hloop]
    rw [findOrder_insertOrder, hfresh]
    simp

/-- Witness for C4: two items (2 × price 5, 1 × price 7) produce a Pending
order with total 17. -/
theorem C4_witness :
    (addToCart w4db (some 1)
        [{ product := 10, quantity := 2 }, { product := 11, quantity := 1 }] 200).1
      = Response.json 201 "VNPAY payment URL created"
    ∧ (addToCart w4db (some 1)
        [{ product := 10, quantity := 2 }, { product := 11, quantity := 1 }] 200).2.findOrder 200
      = some { _id := 200, account := 1,
               items := [{ product := 10, quantity := 2 }, { product := 11, quantity := 1 }],
               totalAmount := specTotal w4db
                 [{ product := 10, quantity := 2 }, { product := 11, quantity := 1 }],
               status := "Pending", imageConfirmDelivered := none } :=
  C4_add_to_cart_total_pending w4db 1
    { _id := 1, email := "a@x", balance := 100, role := "customer" }
    [{ product := 10, quantity := 2 }, { product := 11, quantity := 1 }] 200
    (by decide) (by decide)
    (by
      intro it hit
      rcases List.mem_cons.mp hit with rfl | hit2
      · exact ⟨{ _id := 10, name := "P1", price := 5, quantity := 3 }, by decide, by decide⟩
      · rcases List.mem_singleton.mp hit2 with rfl
        exact ⟨{ _id := 11, name := "P2", price := 7, quantity := 4 }, by decide, by decide⟩)
    (by decide)

/-- C1: [demonstrates the code bug] canceling a `Paid` two-item order credits
both balances and sets status `Canceled`, but restores the stock of only the
FIRST line item (the loop body returns the 200 response inside its first
iteration): product 10 goes back from 3 to 5, while product 11 stays at 4
instead of returning to 7. -/
theorem C1_cancel_restores_only_first_item :
    (cancelOrder c1db 100).1 = Response.jsonRefund 200 cancelMsg ((31 : ℚ) * (1 / 2))
    ∧ ((cancelOrder c1db 100).2.findOrder 100).map Order.status = some "Canceled"
    ∧ (cancelOrder c1db 100).2.findProduct 10
        = some { _id := 10, name := "P1", price := 5, quantity := 5 }
    ∧ (cancelOrder c1db 100).2.findProduct 11
        = some { _id := 11, name := "P2", price := 7, quantity := 4 }
    ∧ (cancelOrder c1db 100).2.findAccount 1
        = some { _id := 1, email := "a@x", balance := 100 + (31 : ℚ) * (1 / 2),
                 role := "customer" }
    ∧ (cancelOrder c1db 100).2.findAccount 2
        = some { _id := 2, email := "adm@x", balance := 0 + (31 : ℚ) * (1 / 2),
                 role := "admin" } := by
  have h := cancelOrder_paid_first c1db 100 c1order
    { _id := 1, email := "a@x", balance := 100, role := "customer" }
    { product := 10, quantity := 2 }
    [{ product := 11, quantity := 3 }]
    { _id := 10, name := "P1", price := 5, quantity := 3 }
    (by decide) (by decide) (by decide) (by decide) (by decide)
  rw [h]
  exact ⟨rfl, by decide, by decide, by decide, rfl, rfl⟩

/-- C10 counterexample: a line item whose product record is missing is NOT
silently skipped.  Confirm-payment on such a Pending order redirects with the
null-`_id` error (not the success redirect), and cancel-order on such a Paid
order responds HTTP 500 — the populated reference is `null` and reading
`._id` throws before the existence guard can skip the item. -/
theorem C10_counterexample_missing_product_not_skipped :
    (confirmPayment c10db 102 "00").1 = errorRedirect nullIdMsg
    ∧ (confirmPayment c10db 102 "00").1 ≠ successRedirect 102
    ∧ (cancelOrder c10cancelDb 103).1 = Response.json 500 nullIdMsg := by
  decide

/-- C10 (amended): when an order's first line item references a product that
no longer exists, the handlers throw on `item.product._id` instead of
skipping: confirm-payment redirects with the null-`_id` error message after
the order has already been persisted as `Paid`, and cancel-order responds
HTTP 500 (after the balance credits). -/
theorem C10_amended_missing_product_throws (db : Db) (oid : Nat) (order : Order)
    (it : OrderItem) (rest : List OrderItem)
    (h : db.findOrder oid = some order)
    (hitems : order.items = it :: rest)
    (hmiss : db.findProduct it.product = none) :
    (order.status = "Pending" →
        (confirmPayment db oid "00").1 = errorRedirect nullIdMsg
        ∧ (confirmPayment db oid "00").2.findOrder oid
            = some { order with status := "Paid" })
    ∧ (order.status = "Paid" →
        ∀ account, db.findAccount order.account = some account →
          (cancelOrder db oid).1 = Response.json 500 nullIdMsg) := by
  constructor
  · intro hs
    have hdl : decLoop (db.saveOrder { order with status := "Paid" })
        (populateItems db order.items)
        = (db.saveOrder { order with status := "Paid" }, some nullIdMsg) := by
      rw [hitems]
      simp [populateItems, hmiss, decLoop]
    constructor
    · rw [confirmPayment_pending_throw db oid order nullIdMsg h hs (by rw [hdl])]
    · rw [confirmPayment_pending_snd db oid order h hs, hdl]
      show (db.saveOrder { order with status := "Paid" }).findOrder oid
          = some { order with status := "Paid" }
      have hid : order._id = oid := findOrder_id db oid order h
      rw [findOrder_saveOrder, if_pos (by simp [hid]), h]
      rfl
  · intro hs account ha
    rw [cancelOrder_paid_throw db oid order account it rest h hs ha hitems hmiss]

/-- Witness for the amended C10: instantiated at the Pending order with the
dangling product reference. -/
theorem C10_amended_witness :
    (c10order.status = "Pending" →
        (confirmPayment c10db 102 "00").1 = errorRedirect nullIdMsg
        ∧ (confirmPayment c10db 102 "00").2.findOrder 102
            = some { c10order with status := "Paid" })
    ∧ (c10order.status = "Paid" →
        ∀ account, c10db.findAccount c10order.account = some account →
          (cancelOrder c10db 102).1 = Response.json 500 nullIdMsg) :=
  C10_amended_missing_product_throws c10db 102 c10order
    { product := 99, quantity := 1 } []
    (by decide) (by decide) (by decide)

/-- Witness for C9: ordered quantity 5 against stock 3 confirms successfully
and leaves stock −2. -/
theorem C9_witness :
    (confirmPayment w9db 101 "00").1 = successRedirect 101
    ∧ (confirmPayment w9db 101 "00").2.findProduct 10
        = some { _id := 10, name := "P1", price := 5, quantity := 3 - 5 }
    ∧ (3 : ℤ) - 5 < 0 :=
  C9_no_stock_recheck w9db 101 w9order { product := 10, quantity := 5 }
    { _id := 10, name := "P1", price := 5, quantity := 3 }
    (by decide) (by decide) (by decide) (by decide) (by decide)

end MMA
